import Mathlib

/-!
# Verification of the Polar MCP server core

Shallow embedding of the core logic of the `polar-mcp-server` repository:

* the upstream client `polarApiRequest` (src/polar-api.ts),
* the tool dispatcher `executePolarTool` (src/polar-api.ts), including the
  multi-step physical-information transaction protocol,
* the OAuth callback / authorize handlers of the hosted deployments:
  the delegated-authorization handler (src/auth/polar-handler.ts) and the
  opaque-session worker callback (the worker variant bundled in src/types.ts).

Network I/O is modelled by an oracle `net : Nat → HttpReq → HttpResp` giving
the HTTP response of the i-th request issued by an operation, and JSON.parse
is modelled by a caller-supplied total function `parse`.  The key-value store
is an association list of string keys to structurally-typed stored values.
Each handler additionally returns the ordered trace of requests / effects it
performed, so ordering and absence of calls are provable.
-/

namespace PolarMCP

/-- A JSON value, the result type of `JSON.parse` and the payload of tool
results.  Mirrors the JavaScript JSON data model. -/
inductive Json where
  | null : Json
  | bool (b : Bool) : Json
  | num (n : Int) : Json
  | str (s : String) : Json
  | arr (elems : List Json) : Json
  | obj (fields : List (String × Json)) : Json

/-- JavaScript truthiness of a JSON value (`null`, `false`, `0` and `""` are
falsy; arrays and objects are always truthy). -/
def Json.truthy : Json → Bool
  | .null => false
  | .bool b => b
  | .num n => n != 0
  | .str s => s ≠ ""
  | .arr _ => true
  | .obj _ => true

/-- Property lookup `j[k]` on a JSON value: `some v` when `j` is an object
with field `k`, otherwise `none` (JavaScript `undefined`). -/
def Json.get? (j : Json) (k : String) : Option Json :=
  match j with
  | .obj fields => (fields.find? (fun f => f.1 = k)).map (fun f => f.2)
  | _ => none

/-- The `.length` property of a JSON value: array length or string length,
`none` (JavaScript `undefined`) for every other shape. -/
def Json.len? : Json → Option Nat
  | .arr xs => some xs.length
  | .str s => some s.length
  | _ => none

/-- JavaScript string coercion of a JSON value, as used by template-literal
interpolation (arrays join with commas, objects print "[object Object]"). -/
def Json.toJsString : Json → String
  | .null => "null"
  | .bool b => if b then "true" else "false"
  | .num n => toString n
  | .str s => s
  | .arr xs => String.intercalate "," (xs.attach.map (fun x => x.1.toJsString))
  | .obj _ => "[object Object]"
decreasing_by
  have h := List.sizeOf_lt_of_mem x.2
  simp only [Json.arr.sizeOf_spec]
  omega

/-- Coercion of an optional JSON value (possibly JavaScript `undefined`) to a
string, as template literals do. -/
def optToJsString : Option Json → String
  | none => "undefined"
  | some j => j.toJsString

/-! ## HTTP model -/

/-- One HTTP request issued against the upstream vendor API: the method
(`"GET"`, `"POST"` or `"PUT"`) and the endpoint path (with query string). -/
structure HttpReq where
  method : String
  path : String
deriving Repr, DecidableEq

/-- An HTTP response as observed through the `fetch` API: `ok` is true for
2xx statuses, `body` is the response body text. -/
structure HttpResp where
  ok : Bool
  status : Nat
  body : String
  statusText : String
deriving Repr, DecidableEq

/-- Outcome of one `polarApiRequest` call: a JSON value, a thrown upstream
error (non-success HTTP status), or a thrown JSON-parse error. -/
inductive ApiOutcome where
  | ok (v : Json) : ApiOutcome
  | apiError (status : Nat) (message : String) : ApiOutcome
  | parseError (message : String) : ApiOutcome

/-- `polarApiRequest` (src/polar-api.ts, lines 19–46), given the response the
transport produced for the request.  A non-ok status throws
`Polar API error (status): errorText || statusText`; an ok response with an
empty body returns `null`; otherwise the body is `JSON.parse`d (`parse`
models `JSON.parse`; a parse failure is a thrown exception). -/
def polarApiRequest (parse : String → Except String Json) (resp : HttpResp) :
    ApiOutcome :=
  if !resp.ok then
    .apiError resp.status
      ("Polar API error (" ++ toString resp.status ++ "): " ++
        (if resp.body = "" then resp.statusText else resp.body))
  else if resp.body = "" then
    .ok .null
  else
    match parse resp.body with
    | .ok j => .ok j
    | .error e => .parseError e

/-- View of an `ApiOutcome` as the `Except` the caller observes: errors carry
the thrown message. -/
def ApiOutcome.toExcept : ApiOutcome → Except String Json
  | .ok v => .ok v
  | .apiError _ m => .error m
  | .parseError m => .error m

/-! ## Tool arguments -/

/-- A JavaScript value as it can appear in the tool-call argument bag
`args : Record<string, unknown>`. -/
inductive JsVal where
  | str (s : String) : JsVal
  | bool (b : Bool) : JsVal
  | num (n : Int) : JsVal
deriving Repr, DecidableEq

/-- JavaScript truthiness of an argument value. -/
def JsVal.truthy : JsVal → Bool
  | .str s => s ≠ ""
  | .bool b => b
  | .num n => n != 0

/-- JavaScript string coercion of an argument value. -/
def JsVal.toJsString : JsVal → String
  | .str s => s
  | .bool b => if b then "true" else "false"
  | .num n => toString n

/-- The argument bag of a tool call. A key that is absent models the
JavaScript `undefined`. -/
def Args := List (String × JsVal)

/-- Property access `args.k`: `none` models `undefined`. -/
def argGet (args : Args) (k : String) : Option JsVal :=
  (args.find? (fun a => a.1 = k)).map (fun a => a.2)

/-- Truthiness of `args.k` (an absent key is falsy). -/
def argTruthy (args : Args) (k : String) : Bool :=
  match argGet args k with
  | none => false
  | some v => v.truthy

/-- String coercion of `args.k` as performed by template literals and by
`URLSearchParams.append` (an absent key stringifies to `"undefined"`). -/
def argStr (args : Args) (k : String) : String :=
  match argGet args k with
  | none => "undefined"
  | some v => v.toJsString

/-! ## URLSearchParams and URL parsing -/

/-- UTF-8 bytes of a character (for percent-encoding). -/
def utf8Bytes (c : Char) : List Nat :=
  let n := c.toNat
  if n < 0x80 then [n]
  else if n < 0x800 then [0xC0 + n / 0x40, 0x80 + n % 0x40]
  else if n < 0x10000 then
    [0xE0 + n / 0x1000, 0x80 + n / 0x40 % 0x40, 0x80 + n % 0x40]
  else
    [0xF0 + n / 0x40000, 0x80 + n / 0x1000 % 0x40, 0x80 + n / 0x40 % 0x40,
      0x80 + n % 0x40]

/-- Uppercase hexadecimal digit. -/
def hexDigit (n : Nat) : Char :=
  if n < 10 then Char.ofNat (48 + n) else Char.ofNat (55 + n)

/-- `application/x-www-form-urlencoded` encoding of one character, as
`URLSearchParams.toString` performs it: alphanumerics and `*-._` unchanged,
space becomes `+`, everything else percent-encoded UTF-8 bytes. -/
def formEncodeChar (c : Char) : String :=
  if c.isAlphanum || c = '*' || c = '-' || c = '.' || c = '_' then
    String.mk [c]
  else if c = ' ' then "+"
  else
    String.join ((utf8Bytes c).map
      (fun b => String.mk ['%', hexDigit (b / 16), hexDigit (b % 16)]))

/-- `application/x-www-form-urlencoded` encoding of a string. -/
def formEncode (s : String) : String :=
  String.join (s.data.map formEncodeChar)

/-- `URLSearchParams.toString()` over the appended `(key, value)` pairs in
insertion order. -/
def searchParamsToString (ps : List (String × String)) : String :=
  String.intercalate "&" (ps.map (fun p => formEncode p.1 ++ "=" ++ formEncode p.2))

/-- Drop characters up to and including the first `"://"` scheme marker;
`none` when the marker is absent. -/
def dropSchemeMarker : List Char → Option (List Char)
  | [] => none
  | ':' :: '/' :: '/' :: rest => some rest
  | _ :: rest => dropSchemeMarker rest

/-- `new URL(s).pathname` for an absolute `scheme://authority/path` URL:
the part from the first `/` after the authority up to any `?` or `#`
(`"/"` when there is no path).  `none` models the `TypeError` that the `URL`
constructor throws on an input without a scheme marker. -/
def urlPathname (s : String) : Option String :=
  match dropSchemeMarker s.data with
  | none => none
  | some rest =>
    match rest.dropWhile (fun c => c ≠ '/') with
    | [] => some "/"
    | p => some (String.mk (p.takeWhile (fun c => c ≠ '?' && c ≠ '#')))

/-- Replace the first occurrence of `pat` (here never empty) in a character
list, as the JavaScript `String.replace(string, string)` does. -/
def replaceFirstList (pat rep : List Char) : List Char → List Char
  | [] => []
  | c :: cs =>
    if pat.isPrefixOf (c :: cs) then rep ++ (c :: cs).drop pat.length
    else c :: replaceFirstList pat rep cs

/-- JavaScript `s.replace(pat, rep)` (first occurrence only). -/
def replaceFirst (s pat rep : String) : String :=
  String.mk (replaceFirstList pat.data rep.data s.data)

/-! ## The tool dispatcher `executePolarTool` (src/polar-api.ts) -/

/-- Network oracle: the response the transport produces for the `i`-th
request an operation issues (indexed by the length of the trace so far). -/
def Net := Nat → HttpReq → HttpResp

/-- Issue one upstream request through `polarApiRequest`, extending the
trace of issued requests.  Thrown errors surface as `Except.error`. -/
def apiCall (net : Net) (parse : String → Except String Json)
    (tr : List HttpReq) (method path : String) :
    Except String Json × List HttpReq :=
  ((polarApiRequest parse (net tr.length ⟨method, path⟩)).toExcept,
    tr ++ [⟨method, path⟩])

/-- JavaScript falsiness of the optional `userId` parameter (absent or the
empty string; a numeric id is rendered as its decimal string). -/
def userIdFalsy : Option String → Bool
  | none => true
  | some s => s = ""

/-- The resource-fetch loop of the `get_physical_info` case: for each listed
resource URL, extract the pathname, strip the first `/v3`, and fetch it.
A `URL`-constructor failure or a failing fetch throws out of the loop (the
source has no try/catch around it), keeping the requests already issued. -/
def fetchLoop (net : Net) (parse : String → Except String Json) :
    List HttpReq → List Json → Except String (List Json) × List HttpReq
  | tr, [] => (.ok [], tr)
  | tr, u :: us =>
    match urlPathname u.toJsString with
    | none => (.error ("Invalid URL: " ++ u.toJsString), tr)
    | some pn =>
      match apiCall net parse tr "GET" (replaceFirst pn "/v3" "") with
      | (.error e, tr2) => (.error e, tr2)
      | (.ok info, tr2) =>
        match fetchLoop net parse tr2 us with
        | (.ok rest, tr3) => (.ok (info :: rest), tr3)
        | (.error e, tr3) => (.error e, tr3)

/-- The guard `!resourceList || !resourceList["physical-informations"]?.length`
of the `get_physical_info` case (src/polar-api.ts, line 634): true when the
listing is falsy, has no `physical-informations` field with a length, or that
length is zero. -/
def noResources (resourceList : Json) : Bool :=
  !resourceList.truthy ||
    (match (resourceList.get? "physical-informations").bind Json.len? with
      | none => true
      | some n => n = 0)

/-- The `try` body of `executePolarTool` (src/polar-api.ts, lines 555–829):
the `switch` on `toolName`.  Returns the computed `result` or the thrown
error message, together with the ordered trace of upstream requests. -/
def runPolarTool (net : Net) (parse : String → Except String Json)
    (toolName : String) (args : Args) (userId : Option String) :
    Except String Json × List HttpReq :=
  if toolName = "get_user_info" then
    if userIdFalsy userId then
      (.error "User ID is required for get_user_info. Set POLAR_USER_ID environment variable.", [])
    else
      apiCall net parse [] "GET" ("/users/" ++ userId.getD "")
  else if toolName = "get_exercises" then
    let ps := (if argTruthy args "samples" then [("samples", "true")] else []) ++
      (if argTruthy args "zones" then [("zones", "true")] else [])
    let qs := searchParamsToString ps
    apiCall net parse [] "GET" ("/exercises" ++ (if qs ≠ "" then "?" ++ qs else ""))
  else if toolName = "get_exercise" then
    let ps := (if argTruthy args "samples" then [("samples", "true")] else []) ++
      (if argTruthy args "zones" then [("zones", "true")] else [])
    let qs := searchParamsToString ps
    apiCall net parse [] "GET"
      ("/exercises/" ++ argStr args "exerciseId" ++ (if qs ≠ "" then "?" ++ qs else ""))
  else if toolName = "get_nightly_recharge" then
    apiCall net parse [] "GET"
      (if argTruthy args "date" then "/users/nightly-recharge/" ++ argStr args "date"
       else "/users/nightly-recharge")
  else if toolName = "get_sleep" then
    apiCall net parse [] "GET"
      (if argTruthy args "date" then "/users/sleep/" ++ argStr args "date"
       else "/users/sleep")
  else if toolName = "get_daily_activity" then
    apiCall net parse [] "GET"
      (if argTruthy args "date" then "/users/activities/" ++ argStr args "date"
       else "/users/activities")
  else if toolName = "get_physical_info" then
    if userIdFalsy userId then
      (.error "User ID is required for get_physical_info. Set POLAR_USER_ID environment variable.", [])
    else
      let uid := userId.getD ""
      match apiCall net parse [] "POST"
          ("/users/" ++ uid ++ "/physical-information-transactions") with
      | (.error e, tr) => (.error e, tr)
      | (.ok txResponse, tr1) =>
        if !txResponse.truthy then
          (.ok (.obj [("message", .str "No new physical information available.")]), tr1)
        else
          let txEndpoint := "/users/" ++ uid ++ "/physical-information-transactions/" ++
            optToJsString (txResponse.get? "transaction-id")
          match apiCall net parse tr1 "GET" txEndpoint with
          | (.error e, tr2) => (.error e, tr2)
          | (.ok resourceList, tr2) =>
            if noResources resourceList then
              -- commit the empty transaction; `.catch(() => {})` swallows the outcome
              (.ok (.obj [("message", .str "No physical information resources found.")]),
                (apiCall net parse tr2 "PUT" txEndpoint).2)
            else
              let urls : List Json :=
                match (resourceList.get? "physical-informations").getD .null with
                | .arr xs => xs
                | .str s => s.data.map (fun c => Json.str (String.mk [c]))
                | _ => []
              match fetchLoop net parse tr2 urls with
              | (.error e, tr3) => (.error e, tr3)
              | (.ok infos, tr3) =>
                -- commit; `.catch(() => {})` swallows the outcome
                (.ok (if infos.length = 1 then infos.headD .null else .arr infos),
                  (apiCall net parse tr3 "PUT" txEndpoint).2)
  else if toolName = "get_continuous_heart_rate" then
    apiCall net parse [] "GET" ("/users/continuous-heart-rate/" ++ argStr args "date")
  else if toolName = "get_continuous_heart_rate_range" then
    apiCall net parse [] "GET" ("/users/continuous-heart-rate?" ++
      searchParamsToString [("from", argStr args "from"), ("to", argStr args "to")])
  else if toolName = "get_cardio_load" then
    apiCall net parse [] "GET"
      (if argTruthy args "date" then "/users/cardio-load/" ++ argStr args "date"
       else "/users/cardio-load")
  else if toolName = "get_cardio_load_range" then
    apiCall net parse [] "GET" ("/users/cardio-load/date?" ++
      searchParamsToString [("from", argStr args "from"), ("to", argStr args "to")])
  else if toolName = "get_cardio_load_history" then
    apiCall net parse [] "GET"
      ("/users/cardio-load/period/" ++ argStr args "period_type" ++ "/" ++ argStr args "count")
  else if toolName = "get_activity_samples" then
    apiCall net parse [] "GET"
      (if argTruthy args "date" then "/users/activities/samples/" ++ argStr args "date"
       else "/users/activities/samples")
  else if toolName = "get_activity_samples_range" then
    apiCall net parse [] "GET" ("/users/activities/samples?" ++
      searchParamsToString [("from", argStr args "from"), ("to", argStr args "to")])
  else if toolName = "get_sleepwise_alertness" then
    apiCall net parse [] "GET"
      (if argTruthy args "from" || argTruthy args "to" then
        "/users/sleepwise/alertness/date?" ++ searchParamsToString
          ((if argTruthy args "from" then [("from", argStr args "from")] else []) ++
            (if argTruthy args "to" then [("to", argStr args "to")] else []))
       else "/users/sleepwise/alertness")
  else if toolName = "get_sleepwise_circadian_bedtime" then
    apiCall net parse [] "GET"
      (if argTruthy args "from" || argTruthy args "to" then
        "/users/sleepwise/circadian-bedtime/date?" ++ searchParamsToString
          ((if argTruthy args "from" then [("from", argStr args "from")] else []) ++
            (if argTruthy args "to" then [("to", argStr args "to")] else []))
       else "/users/sleepwise/circadian-bedtime")
  else if toolName = "get_body_temperature" then
    apiCall net parse [] "GET"
      (if argTruthy args "from" || argTruthy args "to" then
        "/users/biosensing/bodytemperature?" ++ searchParamsToString
          ((if argTruthy args "from" then [("from", argStr args "from")] else []) ++
            (if argTruthy args "to" then [("to", argStr args "to")] else []))
       else "/users/biosensing/bodytemperature")
  else if toolName = "get_skin_temperature" then
    apiCall net parse [] "GET"
      (if argTruthy args "from" || argTruthy args "to" then
        "/users/biosensing/skintemperature?" ++ searchParamsToString
          ((if argTruthy args "from" then [("from", argStr args "from")] else []) ++
            (if argTruthy args "to" then [("to", argStr args "to")] else []))
       else "/users/biosensing/skintemperature")
  else if toolName = "get_spo2" then
    apiCall net parse [] "GET"
      (if argTruthy args "from" || argTruthy args "to" then
        "/users/biosensing/spo2?" ++ searchParamsToString
          ((if argTruthy args "from" then [("from", argStr args "from")] else []) ++
            (if argTruthy args "to" then [("to", argStr args "to")] else []))
       else "/users/biosensing/spo2")
  else if toolName = "get_exercise_fit" then
    apiCall net parse [] "GET" ("/exercises/" ++ argStr args "exerciseId" ++ "/fit")
  else if toolName = "get_exercise_tcx" then
    apiCall net parse [] "GET" ("/exercises/" ++ argStr args "exerciseId" ++ "/tcx")
  else if toolName = "get_exercise_gpx" then
    apiCall net parse [] "GET" ("/exercises/" ++ argStr args "exerciseId" ++ "/gpx")
  else if toolName = "get_daily_activity_range" then
    apiCall net parse [] "GET" ("/users/activities?" ++
      searchParamsToString [("from", argStr args "from"), ("to", argStr args "to")])
  else if toolName = "get_sleep_range" then
    apiCall net parse [] "GET" ("/users/sleep?" ++
      searchParamsToString [("from", argStr args "from"), ("to", argStr args "to")])
  else if toolName = "get_nightly_recharge_range" then
    apiCall net parse [] "GET" ("/users/nightly-recharge?" ++
      searchParamsToString [("from", argStr args "from"), ("to", argStr args "to")])
  else
    (.error ("Unknown tool: " ++ toolName), [])

/-- The uniform result envelope of `executePolarTool`.  `ok result` models
`{ content: [{ type: "text", text: JSON.stringify(result, null, 2) }] }`;
`err text` models `{ content: [{ type: "text", text }], isError: true }`
where `text` is the `"Error: " + message` string built by the catch block. -/
inductive ToolOutcome where
  | ok (result : Json) : ToolOutcome
  | err (text : String) : ToolOutcome

/-- `executePolarTool` (src/polar-api.ts, lines 549–845): runs the `switch`
body and converts every thrown error into the error envelope; by
construction no input makes it raise to its caller. -/
def executePolarTool (net : Net) (parse : String → Except String Json)
    (toolName : String) (args : Args) (userId : Option String) :
    ToolOutcome × List HttpReq :=
  match runPolarTool net parse toolName args userId with
  | (.ok v, tr) => (.ok v, tr)
  | (.error e, tr) => (.err ("Error: " ++ e), tr)

/-- The `required` argument-name lists of the `POLAR_TOOLS` table
(src/polar-api.ts, lines 107–544), keyed by tool name; `none` for a name
not in the table. -/
def polarToolRequired : String → Option (List String)
  | "get_user_info" => some []
  | "get_exercises" => some []
  | "get_exercise" => some ["exerciseId"]
  | "get_nightly_recharge" => some []
  | "get_sleep" => some []
  | "get_daily_activity" => some []
  | "get_physical_info" => some []
  | "get_continuous_heart_rate" => some ["date"]
  | "get_continuous_heart_rate_range" => some ["from", "to"]
  | "get_cardio_load" => some []
  | "get_cardio_load_range" => some ["from", "to"]
  | "get_cardio_load_history" => some ["period_type", "count"]
  | "get_activity_samples" => some []
  | "get_activity_samples_range" => some ["from", "to"]
  | "get_sleepwise_alertness" => some []
  | "get_sleepwise_circadian_bedtime" => some []
  | "get_body_temperature" => some []
  | "get_skin_temperature" => some []
  | "get_spo2" => some []
  | "get_exercise_fit" => some ["exerciseId"]
  | "get_exercise_tcx" => some ["exerciseId"]
  | "get_exercise_gpx" => some ["exerciseId"]
  | "get_daily_activity_range" => some ["from", "to"]
  | "get_sleep_range" => some ["from", "to"]
  | "get_nightly_recharge_range" => some ["from", "to"]
  | _ => none

/-- The tool names handled by the dispatcher's `switch` (equally the keys of
`POLAR_TOOLS`). -/
def polarToolNames : List String :=
  ["get_user_info", "get_exercises", "get_exercise", "get_nightly_recharge",
    "get_sleep", "get_daily_activity", "get_physical_info",
    "get_continuous_heart_rate", "get_continuous_heart_rate_range",
    "get_cardio_load", "get_cardio_load_range", "get_cardio_load_history",
    "get_activity_samples", "get_activity_samples_range",
    "get_sleepwise_alertness", "get_sleepwise_circadian_bedtime",
    "get_body_temperature", "get_skin_temperature", "get_spo2",
    "get_exercise_fit", "get_exercise_tcx", "get_exercise_gpx",
    "get_daily_activity_range", "get_sleep_range", "get_nightly_recharge_range"]

/-- Modelled from the spec: the tool-invocation protocol layer (the MCP
transport, not under src/) validates the argument bag against the declared
schema — every name in the tool's `required` list must be present — before
dispatching to `executePolarTool`; a failed validation rejects the
invocation without running the tool.  The required-name lists themselves are
the ones declared in `POLAR_TOOLS` (source). -/
def callPolarTool (net : Net) (parse : String → Except String Json)
    (toolName : String) (args : Args) (userId : Option String) :
    ToolOutcome × List HttpReq :=
  match polarToolRequired toolName with
  | some req =>
    if req.all (fun r => (argGet args r).isSome) then
      executePolarTool net parse toolName args userId
    else
      (.err ("Invalid arguments: missing required argument for " ++ toolName), [])
  | none => executePolarTool net parse toolName args userId

end PolarMCP

namespace PolarMCP

/-! ## Claim C7: upstream client error contract -/

/-- **C7.** For every `polarApiRequest` call: a non-success HTTP status
always yields a thrown error carrying the status code and the response body
text (`statusText` when the body is empty); a success response with an empty
body always returns `null` and never an error; a success response with a
non-empty body returns its parsed JSON. -/
theorem polarApiRequest_error_contract (parse : String → Except String Json)
    (resp : HttpResp) :
    (resp.ok = false →
      polarApiRequest parse resp =
        .apiError resp.status
          ("Polar API error (" ++ toString resp.status ++ "): " ++
            (if resp.body = "" then resp.statusText else resp.body))) ∧
    (resp.ok = true → resp.body = "" →
      polarApiRequest parse resp = .ok .null) ∧
    (resp.ok = true → resp.body ≠ "" → ∀ j, parse resp.body = .ok j →
      polarApiRequest parse resp = .ok j) := by
  refine ⟨fun hok => ?_, fun hok hb => ?_, fun hok hb j hj => ?_⟩
  · simp [polarApiRequest, hok]
  · simp [polarApiRequest, hok, hb]
  · simp [polarApiRequest, hok, hb, hj]

/-! Helper lemmas about the dispatcher (shared, not claim-bound). -/

/-- The request trace of `executePolarTool` is that of its `try` body: the
catch block only rewraps the outcome. -/
theorem executePolarTool_trace_eq (net : Net) (parse : String → Except String Json)
    (toolName : String) (args : Args) (userId : Option String) :
    (executePolarTool net parse toolName args userId).2 =
      (runPolarTool net parse toolName args userId).2 := by
  unfold executePolarTool
  rcases h : runPolarTool net parse toolName args userId with ⟨e, tr⟩
  cases e <;> simp

/-- Witness for C7: a concrete 404 response produces the documented error, a
concrete empty 200 body produces `null`, and a parsed body is returned. -/
theorem polarApiRequest_error_contract_witness :
    polarApiRequest (fun _ => .ok (.num 5))
        ⟨false, 404, "no data", "Not Found"⟩ =
      .apiError 404 "Polar API error (404): no data" ∧
    polarApiRequest (fun _ => .ok (.num 5)) ⟨true, 204, "", "No Content"⟩ =
      .ok .null ∧
    polarApiRequest (fun _ => .ok (.num 5)) ⟨true, 200, "5", "OK"⟩ =
      .ok (.num 5) := by
  refine ⟨?_, ?_, ?_⟩
  · exact (polarApiRequest_error_contract (fun _ => .ok (.num 5))
      ⟨false, 404, "no data", "Not Found"⟩).1 rfl
  · exact ((polarApiRequest_error_contract (fun _ => .ok (.num 5))
      ⟨true, 204, "", "No Content"⟩).2).1 rfl rfl
  · exact ((polarApiRequest_error_contract (fun _ => .ok (.num 5))
      ⟨true, 200, "5", "OK"⟩).2).2 rfl (by decide) (.num 5) rfl

end PolarMCP

namespace PolarMCP

/-! ## Claim C9: unknown tools and the uniform envelope -/

/-- **C9.** For every `toolName` not present in the dispatch table,
`executePolarTool` returns the uniform error envelope (`isError = true`)
whose text names the unknown tool, and issues no upstream request.  More
generally the function never raises to its caller: `executePolarTool` is a
total function into the envelope type — the catch block (modelled by the
final `match` of `executePolarTool`) converts every thrown error into the
`err` envelope. -/
theorem executePolarTool_unknown_tool_envelope (net : Net)
    (parse : String → Except String Json) (toolName : String) (args : Args)
    (userId : Option String) (h : toolName ∉ polarToolNames) :
    executePolarTool net parse toolName args userId =
      (.err ("Error: " ++ ("Unknown tool: " ++ toolName)), []) := by
  simp only [polarToolNames, List.mem_cons, List.not_mem_nil, or_false, not_or] at h
  obtain ⟨h1, h2, h3, h4, h5, h6, h7, h8, h9, h10, h11, h12, h13, h14, h15, h16, h17,
    h18, h19, h20, h21, h22, h23, h24, h25⟩ := h
  simp [executePolarTool, runPolarTool, h1, h2, h3, h4, h5, h6, h7, h8, h9, h10, h11,
    h12, h13, h14, h15, h16, h17, h18, h19, h20, h21, h22, h23, h24, h25]

/-- Witness for C9 at the concrete unknown name `"not_a_tool"`. -/
theorem executePolarTool_unknown_tool_envelope_witness :
    "not_a_tool" ∉ polarToolNames ∧
    executePolarTool (fun _ _ => ⟨true, 200, "", "OK"⟩) (fun _ => .error "unexpected")
        "not_a_tool" [] none =
      (.err ("Error: " ++ ("Unknown tool: " ++ "not_a_tool")), []) :=
  ⟨by decide, executePolarTool_unknown_tool_envelope _ _ _ _ _ (by decide)⟩

/-! ## Claim C8: boolean flag serialization -/

/-- An argument bag carrying the optional boolean flags `samples` and
`zones` (an absent option models an omitted argument). -/
def flagArgs (samples zones : Option Bool) : Args :=
  (match samples with | some b => [("samples", JsVal.bool b)] | none => []) ++
    (match zones with | some b => [("zones", JsVal.bool b)] | none => [])

/-- The query-string suffix the claim predicts: a flag appears as
`flag=true` exactly when it is present and true; with neither flag set
there is no query string at all. -/
def flagQuery (samples zones : Option Bool) : String :=
  if samples = some true then
    if zones = some true then "?samples=true&zones=true" else "?samples=true"
  else if zones = some true then "?zones=true" else ""

/-- **C8.** For the tools with boolean flag arguments (`get_exercises` and
`get_exercise`), a flag passed as present-and-true serializes into the
query string as `flag=true`, and a flag that is absent or false never
appears; with neither flag set the endpoint has no query string. -/
theorem booleanFlag_query_roundtrip (net : Net)
    (parse : String → Except String Json) (samples zones : Option Bool)
    (eid : String) :
    (executePolarTool net parse "get_exercises" (flagArgs samples zones) none).2 =
      [⟨"GET", "/exercises" ++ flagQuery samples zones⟩] ∧
    (executePolarTool net parse "get_exercise"
        (("exerciseId", JsVal.str eid) :: flagArgs samples zones) none).2 =
      [⟨"GET", "/exercises/" ++ eid ++ flagQuery samples zones⟩] := by
  constructor <;>
    · rw [executePolarTool_trace_eq]
      rcases samples with _ | _ | _ <;> rcases zones with _ | _ | _ <;> rfl

/-! ## Claim C6: range tools require `from` and `to` -/

/-- The date-range tools whose `from`/`to` arguments are both declared
`required` in `POLAR_TOOLS`. -/
def rangeToolNames : List String :=
  ["get_continuous_heart_rate_range", "get_cardio_load_range",
    "get_activity_samples_range", "get_daily_activity_range",
    "get_sleep_range", "get_nightly_recharge_range"]

/-- **C6.** For every date-range tool, an invocation omitting either the
`from` or the `to` argument is rejected by the schema-validation layer
before any upstream HTTP call is made: the result is an error envelope and
the request trace is empty. -/
theorem rangeTool_missing_arg_rejected (net : Net)
    (parse : String → Except String Json) (tool : String) (args : Args)
    (userId : Option String) (htool : tool ∈ rangeToolNames)
    (hmiss : argGet args "from" = none ∨ argGet args "to" = none) :
    ∃ msg, callPolarTool net parse tool args userId = (.err msg, []) := by
  fin_cases htool <;>
    (rcases hmiss with h | h <;>
      exact ⟨_, by simp [callPolarTool, polarToolRequired, h]; rfl⟩)

/-- Witness for C6: `get_sleep_range` called with only `from` is rejected
without issuing a request. -/
theorem rangeTool_missing_arg_rejected_witness :
    "get_sleep_range" ∈ rangeToolNames ∧
    ∃ msg, callPolarTool (fun _ _ => ⟨true, 200, "", "OK"⟩)
        (fun _ => .error "unexpected") "get_sleep_range"
        [("from", .str "2024-01-01")] none = (.err msg, []) :=
  ⟨by decide, rangeTool_missing_arg_rejected _ _ _ _ _ (by decide) (Or.inr rfl)⟩

end PolarMCP

namespace PolarMCP

/-! ## The physical-information transaction claims (C2, C3)

The endpoint paths of the transaction protocol, as `executePolarTool`
builds them. -/

/-- Path of the transaction-creation POST for vendor user `uid`. -/
def pifCreatePath (uid : String) : String :=
  "/users/" ++ uid ++ "/physical-information-transactions"

/-- Path of the listing GET and the commit PUT for the transaction returned
by the creation call (the `transaction-id` field interpolated into the
template). -/
def pifTxPath (uid : String) (tx : Json) : String :=
  "/users/" ++ uid ++ "/physical-information-transactions/" ++
    optToJsString (tx.get? "transaction-id")

/-- On a successful run, the fetch loop issues exactly one GET per listed
resource, in listing order, at the path extracted from the resource's
absolute URI (pathname with the first `/v3` stripped), and collects one
item per resource. -/
theorem fetchLoop_ok_spec (net : Net) (parse : String → Except String Json) :
    ∀ (urls : List Json) (tr tr3 : List HttpReq) (infos : List Json),
      fetchLoop net parse tr urls = (.ok infos, tr3) →
      infos.length = urls.length ∧
      tr3 = tr ++ urls.map (fun u =>
        ⟨"GET", replaceFirst ((urlPathname u.toJsString).getD "") "/v3" ""⟩) := by
  intro urls
  induction urls with
  | nil =>
    intro tr tr3 infos h
    simp only [fetchLoop, Prod.mk.injEq] at h
    obtain ⟨h1, h2⟩ := h
    obtain rfl : infos = [] := by cases h1; rfl
    subst h2
    simp
  | cons u us ih =>
    intro tr tr3 infos h
    rw [fetchLoop] at h
    cases hURL : urlPathname u.toJsString with
    | none => simp only [hURL] at h; simp at h
    | some pn =>
      simp only [hURL] at h
      rcases hc : apiCall net parse tr "GET" (replaceFirst pn "/v3" "") with ⟨e, tr2⟩
      simp only [hc] at h
      cases e with
      | error msg => simp at h
      | ok info =>
        rcases hrec : fetchLoop net parse tr2 us with ⟨er, trr⟩
        simp only [hrec] at h
        cases er with
        | error msg => simp at h
        | ok rest =>
          simp only [Prod.mk.injEq] at h
          obtain ⟨h1, h2⟩ := h
          obtain ⟨hlen, htrr⟩ := ih _ _ _ hrec
          have hinfos : info :: rest = infos := by
            cases h1
            rfl
          have htr2 : tr2 = tr ++ [⟨"GET", replaceFirst pn "/v3" ""⟩] := by
            have h3 := congrArg Prod.snd hc
            simpa [apiCall] using h3.symm
          constructor
          · rw [← hinfos]
            simp [hlen]
          · rw [← h2, htrr, htr2]
            simp [hURL]

/-! ## Claim C3: empty listing still commits, reported as plain "no data" -/

/-- **C3.** For `get_physical_info`, when the transaction is created (a
truthy creation response) but the resource listing is absent (`null`) or
lists zero resources, the transaction is still committed via a PUT before
returning; the commit call's response is unconstrained here (`net 2` is
arbitrary), so a failing commit is swallowed and never surfaced; and the
result is the "no data" message in a normal (non-error) envelope. -/
theorem physicalInfo_empty_listing_still_commits (net : Net)
    (parse : String → Except String Json) (args : Args) (uid : String)
    (tx rl : Json) (huid : ¬ uid = "")
    (hcreate : (polarApiRequest parse (net 0 ⟨"POST", pifCreatePath uid⟩)).toExcept
      = .ok tx)
    (htx : tx.truthy = true)
    (hlist : (polarApiRequest parse (net 1 ⟨"GET", pifTxPath uid tx⟩)).toExcept
      = .ok rl)
    (hempty : noResources rl = true) :
    executePolarTool net parse "get_physical_info" args (some uid) =
      (.ok (.obj [("message", .str "No physical information resources found.")]),
        [⟨"POST", pifCreatePath uid⟩, ⟨"GET", pifTxPath uid tx⟩,
          ⟨"PUT", pifTxPath uid tx⟩]) := by
  simp only [pifCreatePath, pifTxPath] at hcreate hlist
  simp [executePolarTool, runPolarTool, apiCall, userIdFalsy, huid,
    pifCreatePath, pifTxPath, hcreate, htx, hlist, hempty]

end PolarMCP

namespace PolarMCP

/-! Concrete fixtures for the physical-information claims: a `JSON.parse`
table and three network oracles (all-success, empty listing with a failing
commit, and a failing resource fetch). -/

/-- Parse table for the bodies used by the fixtures. -/
def pifParse : String → Except String Json
  | "TX" => .ok (.obj [("transaction-id", .num 7),
      ("resource-uri", .str "https://www.polaraccesslink.com/v3/users/9/physical-information-transactions/7")])
  | "LIST" => .ok (.obj [("physical-informations",
      .arr [.str "https://www.polaraccesslink.com/v3/users/9/physical-information-transactions/7/physical-informations/55"])])
  | "LIST0" => .ok (.obj [("physical-informations", .arr ([] : List Json))])
  | "INFO" => .ok (.obj [("weight", .num 70)])
  | _ => .error "Unexpected token"

/-- All calls succeed: create, list one resource, fetch it, commit. -/
def pifNetOk : Net := fun i _ =>
  if i = 0 then ⟨true, 201, "TX", "Created"⟩
  else if i = 1 then ⟨true, 200, "LIST", "OK"⟩
  else if i = 2 then ⟨true, 200, "INFO", "OK"⟩
  else ⟨true, 200, "", "OK"⟩

/-- Empty listing, and the commit PUT itself fails with a 500. -/
def pifNetEmpty : Net := fun i _ =>
  if i = 0 then ⟨true, 201, "TX", "Created"⟩
  else if i = 1 then ⟨true, 200, "LIST0", "OK"⟩
  else ⟨false, 500, "boom", "Internal Server Error"⟩

/-- The single resource fetch fails with a 404. -/
def pifNetFail : Net := fun i _ =>
  if i = 0 then ⟨true, 201, "TX", "Created"⟩
  else if i = 1 then ⟨true, 200, "LIST", "OK"⟩
  else ⟨false, 404, "nf", "Not Found"⟩

/-- Witness for C3: with an empty listing and a commit that answers 500,
the tool still reports the "no data" message in a non-error envelope and
the PUT was issued. -/
theorem physicalInfo_empty_listing_still_commits_witness :
    executePolarTool pifNetEmpty pifParse "get_physical_info" [] (some "9") =
      (.ok (.obj [("message", .str "No physical information resources found.")]),
        [⟨"POST", "/users/9/physical-information-transactions"⟩,
          ⟨"GET", "/users/9/physical-information-transactions/7"⟩,
          ⟨"PUT", "/users/9/physical-information-transactions/7"⟩]) := by
  have h := physicalInfo_empty_listing_still_commits pifNetEmpty pifParse []
    "9" (.obj [("transaction-id", .num 7),
      ("resource-uri", .str "https://www.polaraccesslink.com/v3/users/9/physical-information-transactions/7")])
    (.obj [("physical-informations", .arr ([] : List Json))])
    (by decide) rfl rfl rfl rfl
  simpa [pifCreatePath, pifTxPath, optToJsString, Json.toJsString, Json.get?] using h

end PolarMCP

namespace PolarMCP

/-! ## Claim C2: fetches and commit of the physical-information operation -/

/-- Counterexample to C2 as stated: with one listed resource whose fetch
answers 404, the operation returns the error envelope and the commit PUT is
never issued — there is no `PUT` request in the trace at all, although the
listing returned `N = 1` resource URIs.  The fetch loop has no try/catch, so
the thrown upstream error propagates to the outer catch before step 4. -/
theorem physicalInfo_commit_skipped_on_fetch_failure :
    executePolarTool pifNetFail pifParse "get_physical_info" [] (some "9") =
      (.err "Error: Polar API error (404): nf",
        [⟨"POST", "/users/9/physical-information-transactions"⟩,
          ⟨"GET", "/users/9/physical-information-transactions/7"⟩,
          ⟨"GET", "/users/9/physical-information-transactions/7/physical-informations/55"⟩]) ∧
    (executePolarTool pifNetFail pifParse "get_physical_info" [] (some "9")).2.filter
        (fun r => r.method = "PUT") = [] := by
  have h : executePolarTool pifNetFail pifParse "get_physical_info" [] (some "9") =
      (.err "Error: Polar API error (404): nf",
        [⟨"POST", "/users/9/physical-information-transactions"⟩,
          ⟨"GET", "/users/9/physical-information-transactions/7"⟩,
          ⟨"GET", "/users/9/physical-information-transactions/7/physical-informations/55"⟩]) := by
    simp [executePolarTool, runPolarTool, apiCall, polarApiRequest, ApiOutcome.toExcept,
      pifParse, pifNetFail, fetchLoop, optToJsString, Json.toJsString, Json.truthy,
      Json.get?, noResources, Json.len?, urlPathname, dropSchemeMarker, replaceFirst,
      replaceFirstList, userIdFalsy]
    exact ⟨rfl, rfl⟩
  exact ⟨h, by rw [h]; rfl⟩

/-- **C2 (amended).** For `get_physical_info` with a created transaction and
a listing of `N ≥ 1` resource URIs, *provided every resource fetch
succeeds*, exactly `N` fetch GETs are issued (one per listed resource, in
order, at the path extracted from its absolute URI) before the commit, and
the commit PUT is issued exactly once, as the final request, whatever its
own response; the collected items are returned, a single item unwrapped and
multiple items as a sequence.  (The original claim's "commit … regardless of
whether each individual fetch succeeds or fails" is dropped: a failing fetch
aborts the operation with an error envelope and no commit, see the
counterexample.) -/
theorem physicalInfo_fetches_then_single_commit (net : Net)
    (parse : String → Except String Json) (args : Args) (uid : String)
    (tx rl : Json) (urls infos : List Json) (tr3 : List HttpReq)
    (huid : ¬ uid = "")
    (hcreate : (polarApiRequest parse (net 0 ⟨"POST", pifCreatePath uid⟩)).toExcept
      = .ok tx)
    (htx : tx.truthy = true)
    (hlist : (polarApiRequest parse (net 1 ⟨"GET", pifTxPath uid tx⟩)).toExcept
      = .ok rl)
    (hfield : rl.get? "physical-informations" = some (.arr urls))
    (hnores : noResources rl = false)
    (hfetch : fetchLoop net parse
      [⟨"POST", pifCreatePath uid⟩, ⟨"GET", pifTxPath uid tx⟩] urls
      = (.ok infos, tr3)) :
    executePolarTool net parse "get_physical_info" args (some uid) =
      (.ok (if infos.length = 1 then infos.headD .null else .arr infos),
        tr3 ++ [⟨"PUT", pifTxPath uid tx⟩]) ∧
    tr3 = [⟨"POST", pifCreatePath uid⟩, ⟨"GET", pifTxPath uid tx⟩] ++
      urls.map (fun u =>
        ⟨"GET", replaceFirst ((urlPathname u.toJsString).getD "") "/v3" ""⟩) ∧
    infos.length = urls.length := by
  obtain ⟨hlen, htr⟩ := fetchLoop_ok_spec net parse urls _ _ _ hfetch
  refine ⟨?_, htr, hlen⟩
  simp only [pifCreatePath, pifTxPath] at hcreate hlist hfetch
  simp [executePolarTool, runPolarTool, apiCall, userIdFalsy, huid,
    pifCreatePath, pifTxPath, hcreate, htx, hlist, hfield, hnores, hfetch]

/-- Witness for C2 (amended): the all-success fixture issues create, list,
one fetch, then exactly one commit PUT, and returns the single fetched item
unwrapped. -/
theorem physicalInfo_fetches_then_single_commit_witness :
    executePolarTool pifNetOk pifParse "get_physical_info" [] (some "9") =
      (.ok (.obj [("weight", .num 70)]),
        [⟨"POST", "/users/9/physical-information-transactions"⟩,
          ⟨"GET", "/users/9/physical-information-transactions/7"⟩,
          ⟨"GET", "/users/9/physical-information-transactions/7/physical-informations/55"⟩,
          ⟨"PUT", "/users/9/physical-information-transactions/7"⟩]) := by
  have h := physicalInfo_fetches_then_single_commit pifNetOk pifParse [] "9"
    (.obj [("transaction-id", .num 7),
      ("resource-uri", .str "https://www.polaraccesslink.com/v3/users/9/physical-information-transactions/7")])
    (.obj [("physical-informations",
      .arr [.str "https://www.polaraccesslink.com/v3/users/9/physical-information-transactions/7/physical-informations/55"])])
    [.str "https://www.polaraccesslink.com/v3/users/9/physical-information-transactions/7/physical-informations/55"]
    [.obj [("weight", .num 70)]]
    [⟨"POST", "/users/9/physical-information-transactions"⟩,
      ⟨"GET", "/users/9/physical-information-transactions/7"⟩,
      ⟨"GET", "/users/9/physical-information-transactions/7/physical-informations/55"⟩]
    (by decide) rfl rfl rfl rfl (by decide)
    (by
      simp [fetchLoop, apiCall, polarApiRequest, ApiOutcome.toExcept, pifParse,
        pifNetOk, Json.toJsString, urlPathname, dropSchemeMarker, replaceFirst,
        replaceFirstList, pifCreatePath, pifTxPath, optToJsString, Json.get?]
      rfl)
  simpa [pifCreatePath, pifTxPath, optToJsString, Json.toJsString, Json.get?] using h.1

end PolarMCP

namespace PolarMCP

/-! ## The OAuth flows (src/auth/polar-handler.ts and the opaque-session
worker bundled in src/types.ts)

The key-value store `OAUTH_KV` is an association list with
most-recent-write-first lookup.  Stored values are structurally typed: the
source writes `JSON.stringify`-ed objects (or the literal `"valid"`) under
namespaced keys, and each namespace holds exactly one shape. -/

/-- The downstream authorization request parked in the store while the
vendor redirect completes (`parseAuthRequest` output, external shape). -/
structure AuthRequest where
  clientId : String
  redirectUri : String
  scope : List String
deriving Repr, DecidableEq

/-- A value stored in `OAUTH_KV`. -/
inductive StoredVal where
  | authReq (a : AuthRequest) : StoredVal
  | stateData (stateKey : String) : StoredVal
  | validMark : StoredVal
  | sessionData (accessToken : String) (userId : Int) : StoredVal
deriving Repr, DecidableEq

/-- The key-value store. -/
def KV := List (String × StoredVal)

/-- `OAUTH_KV.get`. -/
def kvGet (kv : KV) (k : String) : Option StoredVal :=
  (kv.find? (fun e => e.1 = k)).map (fun e => e.2)

/-- `OAUTH_KV.put` (overwrites; TTLs are delegated to the store and not
modelled — an expired entry is simply an absent one). -/
def kvPut (kv : KV) (k : String) (v : StoredVal) : KV :=
  (k, v) :: kv.filter (fun e => ¬ e.1 = k)

/-- `OAUTH_KV.delete`. -/
def kvDel (kv : KV) (k : String) : KV :=
  kv.filter (fun e => ¬ e.1 = k)

/-- `JSON.parse(stateDataStr).stateKey` for a stored state entry: the
linked correlation key for a `stateData` value, and the JavaScript
`undefined` rendering for any other shape (unreachable for keys written by
this code, which only stores `{ stateKey }` under `state:`). -/
def stateKeyOf : StoredVal → String
  | .stateData k => k
  | _ => "undefined"

/-- Observable side effects of a handler, in execution order. -/
inductive Effect where
  | get (key : String) : Effect
  | put (key : String) : Effect
  | del (key : String) : Effect
  | exchange (code : String) : Effect
  | register : Effect
  | complete : Effect
deriving Repr, DecidableEq

/-- The token endpoint's successful payload (`access_token`, `x_user_id`). -/
structure TokenData where
  accessToken : String
  xUserId : Int
deriving Repr, DecidableEq

/-- JavaScript falsiness of an optional query parameter (absent, or present
but empty). -/
def qFalsy : Option String → Bool
  | none => true
  | some s => s = ""

/-- Result of the delegated-authorization callback handler. -/
inductive CbResult where
  | badRequest (message : String) : CbResult
  | redirect (url : String) : CbResult
  | failure (message : String) : CbResult
deriving Repr, DecidableEq

/-- `GET /callback` of the delegated-authorization handler
(src/auth/polar-handler.ts, lines 64–117).  `exchange` models
`fetchPolarToken` (its `Except.error` is the exception it throws on a
non-ok token response, which this handler does not catch — surfacing as
`failure`); `redirectTo` models the URL returned by the external
`completeAuthorization`.  Returns the response, the updated store, and the
ordered effect trace. -/
def handleCallback (kv : KV) (code? state? error? : Option String)
    (exchange : String → Except String TokenData) (redirectTo : String) :
    CbResult × KV × List Effect :=
  if !qFalsy error? then
    (.badRequest ("OAuth Error: " ++ error?.getD ""), kv, [])
  else if qFalsy code? || qFalsy state? then
    (.badRequest "Missing code or state", kv, [])
  else
    let polarState := state?.getD ""
    let sKey := "state:" ++ polarState
    match kvGet kv sKey with
    | none => (.badRequest "Invalid or expired state", kv, [.get sKey])
    | some v =>
      let kv1 := kvDel kv sKey
      let aKey := "auth_request:" ++ stateKeyOf v
      match kvGet kv1 aKey with
      | none => (.badRequest "Auth session expired, please try again", kv1,
          [.get sKey, .del sKey, .get aKey])
      | some _ =>
        let kv2 := kvDel kv1 aKey
        match exchange (code?.getD "") with
        | .error m => (.failure m, kv2,
            [.get sKey, .del sKey, .get aKey, .del aKey, .exchange (code?.getD "")])
        | .ok _ => (.redirect redirectTo, kv2,
            [.get sKey, .del sKey, .get aKey, .del aKey, .exchange (code?.getD ""),
              .register, .complete])

/-- Result of the authorize handlers. -/
inductive AuthzResult where
  | redirect (url : String) : AuthzResult
  | approvalPage (stateKey : String) : AuthzResult
  | badRequest (message : String) : AuthzResult
deriving Repr, DecidableEq

/-- `GET /authorize` of the delegated-authorization handler
(src/auth/polar-handler.ts, lines 21–45): park the parsed `AuthRequest`
under a fresh `stateKey`, then either redirect straight to the vendor
(already-approved cookie; `redirectToPolar` stores the linked CSRF state
under a fresh `callbackState`) or render the approval dialog. -/
def handleAuthorizeGet (kv : KV) (authRequest : AuthRequest) (stateKey : String)
    (callbackState : String) (alreadyApproved : Bool) (upstreamUrl : String) :
    AuthzResult × KV :=
  let kv1 := kvPut kv ("auth_request:" ++ stateKey) (.authReq authRequest)
  if alreadyApproved then
    (.redirect upstreamUrl, kvPut kv1 ("state:" ++ callbackState) (.stateData stateKey))
  else
    (.approvalPage stateKey, kv1)

/-- `POST /authorize` of the delegated-authorization handler
(src/auth/polar-handler.ts, lines 48–61): look up the parked request by the
submitted `state_key`; if absent, fail; else store the linked CSRF state
(`redirectToPolar`) and redirect to the vendor. -/
def handleAuthorizePost (kv : KV) (stateKey : String) (callbackState : String)
    (upstreamUrl : String) : AuthzResult × KV :=
  match kvGet kv ("auth_request:" ++ stateKey) with
  | none => (.badRequest "Session expired, please try again", kv)
  | some _ =>
    (.redirect upstreamUrl, kvPut kv ("state:" ++ callbackState) (.stateData stateKey))

/-- Result of the opaque-session worker callback. -/
inductive WResult where
  | badRequest (message : String) : WResult
  | successPage (sessionId : String) : WResult
deriving Repr, DecidableEq

/-- The `/callback` branch of the opaque-session worker (src/types.ts,
lines 358–433): validate and consume the CSRF state, exchange the code (a
non-ok token response is a 400 here, not a throw), register the user
(outcome ignored), then mint and store a session. -/
def workerCallback (kv : KV) (code? state? error? : Option String)
    (exchange : String → Except String TokenData) (sessionId : String) :
    WResult × KV × List Effect :=
  if !qFalsy error? then
    (.badRequest ("OAuth Error: " ++ error?.getD ""), kv, [])
  else if qFalsy code? || qFalsy state? then
    (.badRequest "Missing code or state", kv, [])
  else
    let s := state?.getD ""
    let sKey := "state:" ++ s
    match kvGet kv sKey with
    | none => (.badRequest "Invalid state - possible CSRF attack", kv, [.get sKey])
    | some _ =>
      let kv1 := kvDel kv sKey
      match exchange (code?.getD "") with
      | .error body => (.badRequest ("Token exchange failed: " ++ body), kv1,
          [.get sKey, .del sKey, .exchange (code?.getD "")])
      | .ok td =>
        (.successPage sessionId,
          kvPut kv1 ("session:" ++ sessionId) (.sessionData td.accessToken td.xUserId),
          [.get sKey, .del sKey, .exchange (code?.getD ""), .register,
            .put ("session:" ++ sessionId)])

end PolarMCP

namespace PolarMCP

/-! Store lemmas (shared helpers). -/

/-- Lookup on a cons cell. -/
theorem kvGet_cons (e : String × StoredVal) (l : KV) (k : String) :
    kvGet (e :: l) k = if e.1 = k then some e.2 else kvGet l k := by
  by_cases h : e.1 = k <;> simp [kvGet, List.find?_cons, h]

/-- Delete on a cons cell. -/
theorem kvDel_cons (e : String × StoredVal) (l : KV) (k2 : String) :
    kvDel (e :: l) k2 = if e.1 = k2 then kvDel l k2 else e :: kvDel l k2 := by
  by_cases h : e.1 = k2 <;> simp [kvDel, List.filter_cons, h]

/-- Lookup after delete. -/
theorem kvGet_del (kv : KV) (k k2 : String) :
    kvGet (kvDel kv k2) k = if k = k2 then none else kvGet kv k := by
  induction kv with
  | nil => simp [kvGet, kvDel]
  | cons e rest ih =>
    rw [kvDel_cons]
    by_cases h1 : e.1 = k2
    · rw [if_pos h1, ih, kvGet_cons]
      by_cases h2 : k = k2
      · simp [h2]
      · have h3 : ¬ e.1 = k := fun hh => h2 ((hh ▸ h1 : k = k2))
        simp [h2, h3]
    · rw [if_neg h1, kvGet_cons, kvGet_cons, ih]
      by_cases h2 : k = k2
      · have h3 : ¬ e.1 = k := fun hh => h1 (h2 ▸ hh)
        simp [h2, h3, h1]
      · simp [h2]

/-- Lookup after put. -/
theorem kvGet_put (kv : KV) (k k2 : String) (v : StoredVal) :
    kvGet (kvPut kv k2 v) k = if k = k2 then some v else kvGet kv k := by
  have h1 : kvPut kv k2 v = (k2, v) :: kvDel kv k2 := rfl
  rw [h1, kvGet_cons, kvGet_del]
  by_cases h2 : k = k2
  · simp [h2]
  · have h3 : ¬ k2 = k := fun hh => h2 hh.symm
    simp [h2, h3]

/-- The `auth_request:` and `state:` key namespaces never collide. -/
theorem authKey_ne_stateKey (a b : String) : ¬ ("auth_request:" ++ a = "state:" ++ b) := by
  intro h
  have h2 : ("auth_request:" ++ a).data.head? = ("state:" ++ b).data.head? :=
    congrArg (fun s : String => s.data.head?) h
  have h3 : ("auth_request:" ++ a).data.head? = some 'a' := rfl
  have h4 : ("state:" ++ b).data.head? = some 's' := rfl
  rw [h3, h4] at h2
  exact absurd h2 (by decide)

/-- Symmetric form of `authKey_ne_stateKey`. -/
theorem stateKey_ne_authKey (a b : String) : ¬ ("state:" ++ a = "auth_request:" ++ b) :=
  fun h => authKey_ne_stateKey b a h.symm

/-- The `state:` and `session:` key namespaces never collide. -/
theorem stateKey_ne_sessionKey (a b : String) : ¬ ("state:" ++ a = "session:" ++ b) := by
  intro h
  have h2 : ("state:" ++ a).data.take 4 = ("session:" ++ b).data.take 4 :=
    congrArg (fun s : String => s.data.take 4) h
  have h3 : ("state:" ++ a).data.take 4 = ['s', 't', 'a', 't'] := rfl
  have h4 : ("session:" ++ b).data.take 4 = ['s', 'e', 's', 's'] := rfl
  rw [h3, h4] at h2
  exact absurd h2 (by decide)

/-! Handler lemmas (shared helpers). -/

/-- A delegated callback whose stored state is missing fails with the
invalid-state 400 and changes nothing beyond the lookup miss. -/
theorem handleCallback_invalid_state (kv : KV) (c s : String)
    (ex : String → Except String TokenData) (rd : String)
    (hc : ¬ c = "") (hs : ¬ s = "")
    (hmiss : kvGet kv ("state:" ++ s) = none) :
    handleCallback kv (some c) (some s) none ex rd =
      (.badRequest "Invalid or expired state", kv, [.get ("state:" ++ s)]) := by
  simp [handleCallback, qFalsy, hc, hs, hmiss]

/-- The opaque-session worker analogue of `handleCallback_invalid_state`. -/
theorem workerCallback_invalid_state (kv : KV) (c s : String)
    (ex : String → Except String TokenData) (sid : String)
    (hc : ¬ c = "") (hs : ¬ s = "")
    (hmiss : kvGet kv ("state:" ++ s) = none) :
    workerCallback kv (some c) (some s) none ex sid =
      (.badRequest "Invalid state - possible CSRF attack", kv, [.get ("state:" ++ s)]) := by
  simp [workerCallback, qFalsy, hc, hs, hmiss]

/-- After any delegated callback that finds its stored state, both the state
entry and the linked auth-request entry are absent from the resulting store,
whatever the pending-request lookup and the token exchange do. -/
theorem handleCallback_state_consumed (kv : KV) (c s : String)
    (ex : String → Except String TokenData) (rd : String) (v : StoredVal)
    (hc : ¬ c = "") (hs : ¬ s = "")
    (hstate : kvGet kv ("state:" ++ s) = some v) :
    kvGet (handleCallback kv (some c) (some s) none ex rd).2.1 ("state:" ++ s) = none ∧
    kvGet (handleCallback kv (some c) (some s) none ex rd).2.1
      ("auth_request:" ++ stateKeyOf v) = none := by
  rcases ha : kvGet (kvDel kv ("state:" ++ s)) ("auth_request:" ++ stateKeyOf v) with _ | w
  · simp [handleCallback, qFalsy, hc, hs, hstate, ha, kvGet_del, stateKey_ne_authKey]
  · cases hex : ex c with
    | error m =>
      simp [handleCallback, qFalsy, hc, hs, hstate, ha, hex, kvGet_del, stateKey_ne_authKey]
    | ok td =>
      simp [handleCallback, qFalsy, hc, hs, hstate, ha, hex, kvGet_del, stateKey_ne_authKey]

/-- After any opaque-session callback that finds its stored state, the state
entry is absent from the resulting store, whatever the exchange does. -/
theorem workerCallback_state_consumed (kv : KV) (c s : String)
    (ex : String → Except String TokenData) (sid : String) (v : StoredVal)
    (hc : ¬ c = "") (hs : ¬ s = "")
    (hstate : kvGet kv ("state:" ++ s) = some v) :
    kvGet (workerCallback kv (some c) (some s) none ex sid).2.1 ("state:" ++ s) = none := by
  cases hex : ex c with
  | error m => simp [workerCallback, qFalsy, hc, hs, hstate, hex, kvGet_del]
  | ok td =>
    simp [workerCallback, qFalsy, hc, hs, hstate, hex, kvGet_del, kvGet_put,
      stateKey_ne_sessionKey]

end PolarMCP

namespace PolarMCP

/-! Concrete fixtures for the OAuth claims. -/

/-- A parked downstream authorization request. -/
def authFixture : AuthRequest := ⟨"client-1", "https://claude.ai/cb", ["mcp"]⟩

/-- A store holding one linked state / auth-request pair. -/
def kvPaired : KV :=
  [("state:st-9", .stateData "sk-1"), ("auth_request:sk-1", .authReq authFixture)]

/-- A token exchange that succeeds. -/
def exOk : String → Except String TokenData := fun _ => .ok ⟨"tok", 42⟩

/-- A token exchange that fails (non-ok token response). -/
def exFail : String → Except String TokenData :=
  fun _ => .error "Polar token exchange failed (400): bad"

/-! ## Claim C1: single-use CSRF state at callback -/

/-- **C1.** In both deployment variants, a callback whose stored CSRF state
exists consumes it: after the first callback the `state:` entry is gone
(whatever the pending-request lookup and token exchange do), and a second
callback presenting the same state value receives the 400 invalid-state
failure because the stored-state lookup misses. -/
theorem callback_state_single_use (kv : KV) (c c2 s : String) (v : StoredVal)
    (ex ex2 wex wex2 : String → Except String TokenData) (rd rd2 sid sid2 : String)
    (hc : ¬ c = "") (hc2 : ¬ c2 = "") (hs : ¬ s = "")
    (hstate : kvGet kv ("state:" ++ s) = some v) :
    (kvGet (handleCallback kv (some c) (some s) none ex rd).2.1 ("state:" ++ s) = none ∧
      (handleCallback (handleCallback kv (some c) (some s) none ex rd).2.1
        (some c2) (some s) none ex2 rd2).1 = .badRequest "Invalid or expired state") ∧
    (kvGet (workerCallback kv (some c) (some s) none wex sid).2.1 ("state:" ++ s) = none ∧
      (workerCallback (workerCallback kv (some c) (some s) none wex sid).2.1
        (some c2) (some s) none wex2 sid2).1 =
          .badRequest "Invalid state - possible CSRF attack") := by
  have hd := handleCallback_state_consumed kv c s ex rd v hc hs hstate
  have hw := workerCallback_state_consumed kv c s wex sid v hc hs hstate
  refine ⟨⟨hd.1, ?_⟩, hw, ?_⟩
  · rw [handleCallback_invalid_state _ c2 s ex2 rd2 hc2 hs hd.1]
  · rw [workerCallback_invalid_state _ c2 s wex2 sid2 hc2 hs hw]

/-- Witness for C1 on a concrete paired store, in both variants. -/
theorem callback_state_single_use_witness :
    kvGet (handleCallback kvPaired (some "code-1") (some "st-9") none exOk
        "https://rd").2.1 ("state:" ++ "st-9") = none ∧
    (handleCallback (handleCallback kvPaired (some "code-1") (some "st-9") none exOk
        "https://rd").2.1 (some "code-2") (some "st-9") none exOk "https://rd").1 =
      .badRequest "Invalid or expired state" ∧
    kvGet (workerCallback kvPaired (some "code-1") (some "st-9") none exOk
        "sess-1").2.1 ("state:" ++ "st-9") = none ∧
    (workerCallback (workerCallback kvPaired (some "code-1") (some "st-9") none exOk
        "sess-1").2.1 (some "code-2") (some "st-9") none exOk "sess-2").1 =
      .badRequest "Invalid state - possible CSRF attack" := by
  have h := callback_state_single_use kvPaired "code-1" "code-2" "st-9"
    (.stateData "sk-1") exOk exOk exOk exOk "https://rd" "https://rd" "sess-1" "sess-2"
    (by decide) (by decide) (by decide) rfl
  exact ⟨h.1.1, h.1.2, h.2.1, h.2.2⟩

/-! ## Claim C10: the CSRF state is consumed before anything else -/

/-- **C10.** In the delegated-authorization callback, once the stored state
is found it is deleted immediately: the first two effects are the state
lookup and the state delete, so the pending-request load and the token
exchange can only happen later; consequently the state is consumed even
when the flow subsequently fails (the conclusion holds for every
pending-request configuration and exchange outcome), and replaying the
identical callback afterwards yields the 400 invalid-state response. -/
theorem delegated_state_deleted_first (kv : KV) (c c2 s : String) (v : StoredVal)
    (ex ex2 : String → Except String TokenData) (rd rd2 : String)
    (hc : ¬ c = "") (hc2 : ¬ c2 = "") (hs : ¬ s = "")
    (hstate : kvGet kv ("state:" ++ s) = some v) :
    (handleCallback kv (some c) (some s) none ex rd).2.2.take 2 =
      [.get ("state:" ++ s), .del ("state:" ++ s)] ∧
    kvGet (handleCallback kv (some c) (some s) none ex rd).2.1 ("state:" ++ s) = none ∧
    (handleCallback (handleCallback kv (some c) (some s) none ex rd).2.1
      (some c2) (some s) none ex2 rd2).1 = .badRequest "Invalid or expired state" := by
  have hd := handleCallback_state_consumed kv c s ex rd v hc hs hstate
  refine ⟨?_, hd.1, ?_⟩
  · rcases ha : kvGet (kvDel kv ("state:" ++ s)) ("auth_request:" ++ stateKeyOf v) with _ | w
    · simp [handleCallback, qFalsy, hc, hs, hstate, ha]
    · cases hex : ex c <;>
        simp [handleCallback, qFalsy, hc, hs, hstate, ha, hex]
  · rw [handleCallback_invalid_state _ c2 s ex2 rd2 hc2 hs hd.1]

/-- Witness for C10 on the paired store with a *failing* token exchange:
the state is still consumed and the replay gets the invalid-state 400. -/
theorem delegated_state_deleted_first_witness :
    (handleCallback kvPaired (some "code-1") (some "st-9") none exFail
        "https://rd").2.2.take 2 = [.get ("state:" ++ "st-9"), .del ("state:" ++ "st-9")] ∧
    kvGet (handleCallback kvPaired (some "code-1") (some "st-9") none exFail
        "https://rd").2.1 ("state:" ++ "st-9") = none ∧
    (handleCallback (handleCallback kvPaired (some "code-1") (some "st-9") none exFail
        "https://rd").2.1 (some "code-2") (some "st-9") none exFail "https://rd").1 =
      .badRequest "Invalid or expired state" :=
  delegated_state_deleted_first kvPaired "code-1" "code-2" "st-9" (.stateData "sk-1")
    exFail exFail "https://rd" "https://rd" (by decide) (by decide) (by decide) rfl

end PolarMCP

namespace PolarMCP

/-! ## Claim C4: auth request and CSRF state live and die as a linked pair -/

/-- **C4.** The authorization flow creates the `PendingAuthRequest` and the
CSRF state as a pair linked by the correlation key: the approved `GET
/authorize` stores both entries, with the state entry recording the
`stateKey` of the auth-request entry, and `POST /authorize` adds the linked
state entry while the parked auth request stays in place.  At callback,
when the stored state (linking key `k`) is found, both entries are absent
afterwards — whatever the pending-request lookup and the token exchange do
— and when the state lookup misses, the store is left untouched, so both
entries (if any) are left to expire via TTL.  Never is one consumed without
the other. -/
theorem authRequest_csrfState_pairing (kv : KV) (a : AuthRequest)
    (stateKey callbackState upstreamUrl : String) (c s k : String)
    (ex : String → Except String TokenData) (rd : String)
    (hc : ¬ c = "") (hs : ¬ s = "") :
    (kvGet (handleAuthorizeGet kv a stateKey callbackState true upstreamUrl).2
        ("auth_request:" ++ stateKey) = some (.authReq a) ∧
      kvGet (handleAuthorizeGet kv a stateKey callbackState true upstreamUrl).2
        ("state:" ++ callbackState) = some (.stateData stateKey)) ∧
    (∀ w, kvGet kv ("auth_request:" ++ stateKey) = some w →
      kvGet (handleAuthorizePost kv stateKey callbackState upstreamUrl).2
          ("state:" ++ callbackState) = some (.stateData stateKey) ∧
        kvGet (handleAuthorizePost kv stateKey callbackState upstreamUrl).2
          ("auth_request:" ++ stateKey) = some w) ∧
    (kvGet kv ("state:" ++ s) = some (.stateData k) →
      kvGet (handleCallback kv (some c) (some s) none ex rd).2.1 ("state:" ++ s) = none ∧
      kvGet (handleCallback kv (some c) (some s) none ex rd).2.1
        ("auth_request:" ++ k) = none) ∧
    (kvGet kv ("state:" ++ s) = none →
      (handleCallback kv (some c) (some s) none ex rd).2.1 = kv) := by
  refine ⟨⟨?_, ?_⟩, ?_, ?_, ?_⟩
  · simp [handleAuthorizeGet, kvGet_put, authKey_ne_stateKey]
  · simp [handleAuthorizeGet, kvGet_put]
  · intro w hw
    simp [handleAuthorizePost, hw, kvGet_put, authKey_ne_stateKey]
  · intro hstate
    have hd := handleCallback_state_consumed kv c s ex rd (.stateData k) hc hs hstate
    exact ⟨hd.1, hd.2⟩
  · intro hmiss
    rw [handleCallback_invalid_state _ c s ex rd hc hs hmiss]

/-- Witness for C4 at concrete stores: pair creation on the approved GET
and on the POST, joint consumption at callback, and an untouched store on a
state miss. -/
theorem authRequest_csrfState_pairing_witness :
    (kvGet (handleAuthorizeGet [] authFixture "sk-1" "st-9" true "https://up").2
        ("auth_request:" ++ "sk-1") = some (.authReq authFixture) ∧
      kvGet (handleAuthorizeGet [] authFixture "sk-1" "st-9" true "https://up").2
        ("state:" ++ "st-9") = some (.stateData "sk-1")) ∧
    (kvGet (handleAuthorizePost [("auth_request:sk-1", .authReq authFixture)]
        "sk-1" "st-9" "https://up").2 ("state:" ++ "st-9") = some (.stateData "sk-1") ∧
      kvGet (handleAuthorizePost [("auth_request:sk-1", .authReq authFixture)]
        "sk-1" "st-9" "https://up").2 ("auth_request:" ++ "sk-1") =
          some (.authReq authFixture)) ∧
    (kvGet (handleCallback kvPaired (some "code-1") (some "st-9") none exOk
        "https://rd").2.1 ("state:" ++ "st-9") = none ∧
      kvGet (handleCallback kvPaired (some "code-1") (some "st-9") none exOk
        "https://rd").2.1 ("auth_request:" ++ "sk-1") = none) ∧
    (handleCallback [] (some "code-1") (some "st-9") none exOk "https://rd").2.1 = [] := by
  have h1 := authRequest_csrfState_pairing [] authFixture "sk-1" "st-9" "https://up"
    "code-1" "st-9" "sk-1" exOk "https://rd" (by decide) (by decide)
  have h2 := authRequest_csrfState_pairing
    [("auth_request:sk-1", .authReq authFixture)] authFixture "sk-1" "st-9"
    "https://up" "code-1" "st-9" "sk-1" exOk "https://rd" (by decide) (by decide)
  have h3 := authRequest_csrfState_pairing kvPaired authFixture "sk-1" "st-9"
    "https://up" "code-1" "st-9" "sk-1" exOk "https://rd" (by decide) (by decide)
  exact ⟨h1.1, h2.2.1 (.authReq authFixture) rfl, h3.2.2.1 rfl, h1.2.2.2 rfl⟩

/-! ## Claim C5: the vendor-denial branch comes first -/

/-- **C5.** In both deployment variants, a callback carrying a (truthy)
`error` query parameter fails with the 400 `OAuth Error:` response before
any other processing: the store is returned unchanged and the effect trace
is empty — no stored state is read or deleted, no token exchange happens,
and no session (or downstream grant) is created — whatever the `code` and
`state` parameters are. -/
theorem callback_error_param_fails_first (kv : KV) (code? state? : Option String)
    (e : String) (ex wex : String → Except String TokenData) (rd sid : String)
    (he : ¬ e = "") :
    handleCallback kv code? state? (some e) ex rd =
      (.badRequest ("OAuth Error: " ++ e), kv, []) ∧
    workerCallback kv code? state? (some e) wex sid =
      (.badRequest ("OAuth Error: " ++ e), kv, []) := by
  constructor <;> simp [handleCallback, workerCallback, qFalsy, he]

/-- Witness for C5 with `error=access_denied` alongside valid-looking
`code`/`state` on a store that does hold the state entry: nothing happens. -/
theorem callback_error_param_fails_first_witness :
    handleCallback kvPaired (some "code-1") (some "st-9") (some "access_denied")
        exOk "https://rd" =
      (.badRequest ("OAuth Error: " ++ "access_denied"), kvPaired, []) ∧
    workerCallback kvPaired (some "code-1") (some "st-9") (some "access_denied")
        exOk "sess-1" =
      (.badRequest ("OAuth Error: " ++ "access_denied"), kvPaired, []) :=
  callback_error_param_fails_first kvPaired (some "code-1") (some "st-9")
    "access_denied" exOk exOk "https://rd" "sess-1" (by decide)

end PolarMCP
